import Mathlib

/-!
Shallow embedding of the HighPowerCatalog offline-caching code:
the service worker `sw.js` (activate cleanup, fetch strategies, `cacheBook`)
and the client `src/flipbook/cache.ts` (`CacheManager`), together with
theorems about the spec's claims.
-/

namespace HighPowerCatalog

/-! ## Responses, fetch environment, cache stores -/

/-- An HTTP-like response as the code observes it: `ok` (2xx), status code,
status text and body.  Mirrors the fields the service worker reads and the
`new Response(body, {status, statusText})` constructor. -/
structure Response where
  ok : Bool
  status : Nat
  statusText : String
  body : String
deriving Repr, DecidableEq

abbrev Url := String

/-- The network, as seen through `fetch`: `none` models a rejected fetch
(network error / offline), `some r` a fetch that resolved with response `r`
(possibly non-ok, e.g. a 404). -/
abbrev FetchEnv := Url → Option Response

/-- A cache store: an association list from request URL to stored response;
`put` prepends, so the most recent write shadows older ones. -/
abbrev Store := List (Url × Response)

/-- Raw insertion into a store, keyed by URL. -/
def Store.put (s : Store) (u : Url) (r : Response) : Store := (u, r) :: s

/-- The Cache API's `cache.put(request, response)` as invoked with a request
object: the platform rejects the put with a TypeError when the request's
method is not GET, and in sw.js every such put sits in a detached
`caches.open(...).then(...)` promise whose rejection is swallowed, so a
non-GET put has no observable effect on the store.  (A put keyed by a URL
string, as in `cacheBook`, constructs a GET request and always stores.) -/
def Store.putRequest (s : Store) (method : String) (u : Url) (r : Response) : Store :=
  if method == "GET" then s.put u r else s

/-- `cache.match(request)` keyed by the request URL. -/
def Store.find : Store → Url → Option Response
  | [], _ => none
  | (k, r) :: rest, u => if k = u then some r else Store.find rest u

/-! ## sw.js constants and activate-event cleanup -/

def CACHE_NAME : String := "flipbook-pwa-v1"
def RUNTIME_CACHE : String := "flipbook-runtime-v1"
def ASSET_CACHE : String := "flipbook-assets-v1"

/-- The activate handler (sw.js lines 11-23): every existing cache whose name
is not one of the three fixed names is deleted.  Returns the deleted names. -/
def activateDeletedCaches (cacheNames : List String) : List String :=
  cacheNames.filter fun n => !(n == CACHE_NAME || n == RUNTIME_CACHE || n == ASSET_CACHE)

/-! ## The fetch event listener (sw.js lines 26-109) -/

/-- The parts of a request the fetch handler inspects. -/
structure Request where
  method : String
  protocol : String
  pathname : String
deriving Repr, DecidableEq

/-- The three cache stores the service worker writes to. -/
structure Caches where
  pwa : Store
  runtime : Store
  assets : Store
deriving Repr, DecidableEq

/-- `caches.match(request)`: searches every store. -/
def Caches.matchUrl (c : Caches) (u : Url) : Option Response :=
  match c.pwa.find u with
  | some r => some r
  | none =>
    match c.runtime.find u with
    | some r => some r
    | none => c.assets.find u

/-- Substring occurrence on character lists. -/
def hasSubList (p : List Char) : List Char → Bool
  | [] => p.isEmpty
  | c :: rest => p.isPrefixOf (c :: rest) || hasSubList p rest

/-- String containment test (`String.prototype.includes`). -/
def containsSub (s pat : String) : Bool := hasSubList pat.data s.data

/-- Prefix test (`String.prototype.startsWith`). -/
def strStartsWith (s pre : String) : Bool := pre.data.isPrefixOf s.data

/-- The synthetic fallback of the network-first branch (sw.js lines 51-54). -/
def offlineManifestResponse : Response :=
  { ok := false, status := 503, statusText := "Service Unavailable",
    body := "Offline - manifest not available" }

/-- The synthetic fallback of the cache-first branch (sw.js lines 81-84). -/
def offlineResourceResponse : Response :=
  { ok := false, status := 503, statusText := "Service Unavailable",
    body := "Offline - resource not available" }

/-- Outcome of the fetch listener for one request: whether `respondWith` was
called, the response the caller's promise settles with (`none` either when the
request was not intercepted or when the promise rejects with no fallback, which
only the stale-while-revalidate branch allows), the cache state afterwards
(background `cache.put` included), and whether a network fetch was issued. -/
structure FetchResult where
  intercepted : Bool
  response : Option Response
  caches : Caches
  networkUsed : Bool
deriving Repr, DecidableEq

/-- The fetch event listener.  Branch order as in sw.js: non-http requests are
skipped; a pathname containing `/manifest.json` gets network-first; a pathname
containing `/books/` gets cache-first; everything else stale-while-revalidate.
No branch inspects the method before choosing a strategy.  Every write goes
through `Store.putRequest`, the platform primitive that only stores GET
requests: the cache-first and stale-while-revalidate branches additionally
check `response.ok` and the method themselves, while the network-first branch
checks only `response.ok` and leaves the method to the platform. -/
def handleFetch (env : FetchEnv) (req : Request) (cs : Caches) : FetchResult :=
  if !strStartsWith req.protocol "http" then
    { intercepted := false, response := none, caches := cs, networkUsed := false }
  else if containsSub req.pathname "/manifest.json" then
    match env req.pathname with
    | some resp =>
      if !resp.ok then
        { intercepted := true, response := some resp, caches := cs, networkUsed := true }
      else
        { intercepted := true, response := some resp,
          caches := { cs with runtime := cs.runtime.putRequest req.method req.pathname resp },
          networkUsed := true }
    | none =>
      match cs.matchUrl req.pathname with
      | some cached =>
        { intercepted := true, response := some cached, caches := cs, networkUsed := true }
      | none =>
        { intercepted := true, response := some offlineManifestResponse,
          caches := cs, networkUsed := true }
  else if containsSub req.pathname "/books/" then
    match cs.matchUrl req.pathname with
    | some cached =>
      { intercepted := true, response := some cached, caches := cs, networkUsed := false }
    | none =>
      match env req.pathname with
      | some resp =>
        if !resp.ok || req.method != "GET" then
          { intercepted := true, response := some resp, caches := cs, networkUsed := true }
        else
          { intercepted := true, response := some resp,
            caches := { cs with runtime := cs.runtime.putRequest req.method req.pathname resp },
            networkUsed := true }
      | none =>
        { intercepted := true, response := some offlineResourceResponse,
          caches := cs, networkUsed := true }
  else
    let csAfter : Caches :=
      match env req.pathname with
      | some resp =>
        if resp.ok && req.method == "GET" then
          { cs with assets := cs.assets.putRequest req.method req.pathname resp }
        else cs
      | none => cs
    match cs.matchUrl req.pathname with
    | some cached =>
      { intercepted := true, response := some cached, caches := csAfter, networkUsed := true }
    | none =>
      { intercepted := true, response := env req.pathname, caches := csAfter,
        networkUsed := true }

/-! ## The message-driven book download (sw.js lines 112-179) -/

/-- One entry of the manifest's page array, as sent in the `CACHE_BOOK`
message (types.ts `BookPage`). -/
structure Page where
  pageNumber : Nat
  image : String
  thumbnail : String
  width : Nat
  height : Nat
deriving Repr, DecidableEq

/-- The messages `cacheBook` posts back on the reply port. -/
inductive PortMsg where
  | progress (cached : Nat) (total : Nat)
  | complete (success : Bool)
deriving Repr, DecidableEq

def PortMsg.isProgress : PortMsg → Bool
  | progress _ _ => true
  | complete _ => false

def manifestUrl (baseUrl bookId : String) : Url :=
  baseUrl ++ "/books/" ++ bookId ++ "/manifest.json"

def pageUrl (baseUrl bookId : String) (p : Page) : Url :=
  baseUrl ++ "/books/" ++ bookId ++ "/" ++ p.image

def thumbUrl (baseUrl bookId : String) (p : Page) : Url :=
  baseUrl ++ "/books/" ++ bookId ++ "/" ++ p.thumbnail

/-- One iteration of the page loop (sw.js lines 147-172).  Both fetches are
issued together (`Promise.all`); if either rejects the whole iteration lands
in the catch and stores nothing.  When both resolve, the page response is
stored and counted if ok, then the thumbnail response likewise. -/
def cachePageStep (env : FetchEnv) (baseUrl bookId : String) (total : Nat)
    (p : Page) (store : Store) (cached : Nat) : Store × Nat × List PortMsg :=
  let pu := pageUrl baseUrl bookId p
  let tu := thumbUrl baseUrl bookId p
  match env pu, env tu with
  | some pr, some tr =>
    if pr.ok then
      if tr.ok then
        (((store.put pu pr).put tu tr), cached + 2,
          [.progress (cached + 1) total, .progress (cached + 2) total])
      else (store.put pu pr, cached + 1, [.progress (cached + 1) total])
    else
      if tr.ok then (store.put tu tr, cached + 1, [.progress (cached + 1) total])
      else (store, cached, [])
  | some _, none => (store, cached, [])
  | none, some _ => (store, cached, [])
  | none, none => (store, cached, [])

/-- Accumulated outcome of the page loop. -/
structure LoopState where
  store : Store
  cached : Nat
  msgs : List PortMsg
  attempts : List Url
deriving Repr, DecidableEq

/-- The page loop of `cacheBook`: pages in manifest order, each processed by
`cachePageStep`; the two fetch attempts of every page are recorded whether or
not they resolve. -/
def cachePages (env : FetchEnv) (baseUrl bookId : String) (total : Nat) :
    List Page → Store → Nat → LoopState
  | [], store, cached => ⟨store, cached, [], []⟩
  | p :: ps, store, cached =>
    let step := cachePageStep env baseUrl bookId total p store cached
    let rest := cachePages env baseUrl bookId total ps step.1 step.2.1
    ⟨rest.store, rest.cached, step.2.2 ++ rest.msgs,
      pageUrl baseUrl bookId p :: thumbUrl baseUrl bookId p :: rest.attempts⟩

/-- Outcome of `cacheBook` in the service worker: the name passed to
`caches.open`, the store contents afterwards, the posted messages in order,
and the URLs passed to `fetch` in order. -/
structure SwCacheResult where
  storeName : String
  store : Store
  messages : List PortMsg
  attempts : List Url
deriving Repr, DecidableEq

/-- The manifest-caching step of `cacheBook` (sw.js lines 133-141): fetch the
manifest URL, store it when the response is ok; a rejection or a non-ok
response is swallowed by its own try/catch. -/
def storeManifest (env : FetchEnv) (baseUrl bookId : String) (store : Store) : Store :=
  match env (manifestUrl baseUrl bookId) with
  | some r => if r.ok then store.put (manifestUrl baseUrl bookId) r else store
  | none => store

/-- sw.js `cacheBook(bookId, pages, port)`.  `openOk = false` models
`caches.open` throwing (the only fatal point), which the outer catch turns
into `CACHE_COMPLETE {success:false}`.  Otherwise the manifest is fetched and
stored if ok, `total` is fixed at `pages.length * 2`, the page loop runs, and
`CACHE_COMPLETE {success:true}` is posted regardless of per-item failures. -/
def swCacheBook (openOk : Bool) (env : FetchEnv) (baseUrl bookId : String)
    (pages : List Page) (store : Store) : SwCacheResult :=
  if openOk then
    let store1 := storeManifest env baseUrl bookId store
    let res := cachePages env baseUrl bookId (pages.length * 2) pages store1 0
    ⟨RUNTIME_CACHE, res.store, res.msgs ++ [.complete true],
      manifestUrl baseUrl bookId :: res.attempts⟩
  else
    ⟨RUNTIME_CACHE, store, [.complete false], []⟩

/-! ## The client CacheManager (src/flipbook/cache.ts) -/

/-- cache.ts `CacheState`. -/
structure CacheState where
  isOfflineReady : Bool
  isCaching : Bool
  cacheProgress : Nat
deriving Repr, DecidableEq

/-- The initial state of a `CacheManager`. -/
def initialCacheState : CacheState :=
  { isOfflineReady := false, isCaching := false, cacheProgress := 0 }

/-- `Math.round((cached / total) * 100)` for `total > 0` (round half up on a
non-negative rational). -/
def progressPct (cached total : Nat) : Nat := (200 * cached + total) / (2 * total)

/-- What can reach the `cacheBook` promise machinery: a port message from the
service worker, or the firing of the 5-minute timeout. -/
inductive ClientEvent where
  | msg (m : PortMsg)
  | timeout
deriving Repr, DecidableEq

/-- Settlement state of the promise returned by `CacheManager.cacheBook`. -/
inductive Settled where
  | pending
  | resolved
  | rejected (error : String)
deriving Repr, DecidableEq

/-- A run of the client machinery: the observable `CacheState`, the promise
settlement, and whether `channel.port1` has been closed. -/
structure ClientRun where
  state : CacheState
  settled : Settled
  portClosed : Bool
deriving Repr, DecidableEq

/-- One event of the `cacheBook` promise executor (cache.ts lines 51-76).
Messages on a closed port are lost.  `CACHE_COMPLETE {success:true}` sets
`{isOfflineReady := true, isCaching := false, cacheProgress := 100}`, resolves,
and closes the port.  `CACHE_COMPLETE {success:false}` rejects and closes the
port without touching the state.  `CACHE_PROGRESS` merges
`{isCaching := true, cacheProgress := round(cached/total*100)}`.  The timeout
closes the port and rejects, also without touching the state; settling is
first-wins as for a JS promise. -/
def clientHandle (r : ClientRun) : ClientEvent → ClientRun
  | .msg m =>
    if r.portClosed then r
    else
      match m with
      | .complete true =>
        { state := { isOfflineReady := true, isCaching := false, cacheProgress := 100 },
          settled := if r.settled = .pending then .resolved else r.settled,
          portClosed := true }
      | .complete false =>
        { r with
          settled := if r.settled = .pending then .rejected "Caching failed" else r.settled,
          portClosed := true }
      | .progress cached total =>
        { r with
          state := { r.state with
            isCaching := true, cacheProgress := progressPct cached total } }
  | .timeout =>
    { r with
      settled := if r.settled = .pending then .rejected "Caching timeout" else r.settled,
      portClosed := true }

/-- Run the client machinery from a fresh `CacheManager` over a sequence of
events. -/
def clientRun (events : List ClientEvent) : ClientRun :=
  events.foldl clientHandle
    { state := initialCacheState, settled := .pending, portClosed := false }

/-- All intermediate runs, the initial one included. -/
def clientStates (events : List ClientEvent) : List ClientRun :=
  events.scanl clientHandle
    { state := initialCacheState, settled := .pending, portClosed := false }

/-- Collapse consecutive duplicates, to read off the sequence of distinct
reported progress values. -/
def dedupConsec : List Nat → List Nat
  | [] => []
  | [a] => [a]
  | a :: b :: rest => if a = b then dedupConsec (b :: rest) else a :: dedupConsec (b :: rest)

/-- The guard of `CacheManager.cacheBook` (cache.ts lines 33-35): without a
service worker or an active controller it throws
`Error('Service Worker not available')`. -/
def clientCacheBookGuard (hasServiceWorker hasController : Bool) : Except String Unit :=
  if !hasServiceWorker || !hasController then
    Except.error "Service Worker not available"
  else Except.ok ()

/-- The manifest as loaded by the viewer (types.ts `BookManifest`). -/
structure BookManifest where
  id : String
  title : String
  author : String
  totalPages : Nat
  coverImage : String
  pages : List Page
deriving Repr, DecidableEq

/-- The payload of the `CACHE_BOOK` message the client posts to the service
worker (cache.ts lines 41-48): only the id and the page array; the cover
image is not transmitted. -/
def cacheBookMessage (m : BookManifest) : String × List Page := (m.id, m.pages)

/-! ## Concrete fixtures -/

/-- A 200 response with the given body. -/
def okResp (b : String) : Response :=
  { ok := true, status := 200, statusText := "OK", body := b }

/-- A non-ok 404 response. -/
def notFoundResp : Response :=
  { ok := false, status := 404, statusText := "Not Found", body := "" }

/-- The page of the spec's concrete one-page manifest. -/
def page1 : Page :=
  { pageNumber := 1, image := "pages/page-1.jpg", thumbnail := "thumbs/page-1.jpg",
    width := 1024, height := 1536 }

def emptyCaches : Caches := { pwa := [], runtime := [], assets := [] }

def scenarioBase : String := "app"
def scenarioBookId : String := "catalog_11-12-25"

/-- A network where the manifest, page image and thumbnail of the concrete
scenario all resolve ok. -/
def scenarioEnv : FetchEnv := fun u =>
  if u = manifestUrl scenarioBase scenarioBookId then some (okResp "manifest")
  else if u = pageUrl scenarioBase scenarioBookId page1 then some (okResp "image")
  else if u = thumbUrl scenarioBase scenarioBookId page1 then some (okResp "thumb")
  else none

def scenarioResult : SwCacheResult :=
  swCacheBook true scenarioEnv scenarioBase scenarioBookId [page1] []

/-- A network where the thumbnail fetch rejects and everything else is ok. -/
def rejectThumbEnv : FetchEnv := fun u =>
  if u = manifestUrl scenarioBase "bk" then some (okResp "manifest")
  else if u = pageUrl scenarioBase "bk" page1 then some (okResp "image")
  else none

def rejectThumbResult : SwCacheResult :=
  swCacheBook true rejectThumbEnv scenarioBase "bk" [page1] []

/-- A one-page manifest carrying a distinct cover image. -/
def coverManifest : BookManifest :=
  { id := "bk2", title := "T", author := "A", totalPages := 1,
    coverImage := "cover.jpg", pages := [page1] }

/-- A network where every URL resolves ok, so even a cover fetch would
succeed were it attempted. -/
def coverEnv : FetchEnv := fun _ => some (okResp "asset")

def coverResult : SwCacheResult :=
  swCacheBook true coverEnv scenarioBase (cacheBookMessage coverManifest).1
    (cacheBookMessage coverManifest).2 []

def postManifestReq : Request :=
  { method := "POST", protocol := "https:", pathname := "/books/cx/manifest.json" }

def postManifestEnv : FetchEnv := fun u =>
  if u = "/books/cx/manifest.json" then some (okResp "posted") else none

def putManifestReq : Request :=
  { method := "PUT", protocol := "https:", pathname := "/books/cy/manifest.json" }

def putManifestEnv : FetchEnv := fun u =>
  if u = "/books/cy/manifest.json" then some (okResp "put-body") else none

def manReq : Request :=
  { method := "GET", protocol := "https:", pathname := "/books/w/manifest.json" }

/-- Caches holding a stale copy of the manifest of `manReq`. -/
def staleCaches : Caches :=
  { pwa := [], runtime := [("/books/w/manifest.json", okResp "stale")], assets := [] }

def manEnv : FetchEnv := fun u =>
  if u = "/books/w/manifest.json" then some (okResp "fresh") else none

def booksReq : Request :=
  { method := "GET", protocol := "https:", pathname := "/books/x/pages/page-2.jpg" }

/-- A fully offline network: every fetch rejects. -/
def offlineEnv : FetchEnv := fun _ => none

def putAssetReq : Request :=
  { method := "PUT", protocol := "https:", pathname := "/scripts/app.js" }

/-- A network where the book "bk3" thumbnail resolves with a non-ok 404 while
the manifest and page image resolve ok. -/
def nonOkThumbEnv : FetchEnv := fun u =>
  if u = manifestUrl scenarioBase "bk3" then some (okResp "manifest")
  else if u = pageUrl scenarioBase "bk3" page1 then some (okResp "image")
  else if u = thumbUrl scenarioBase "bk3" page1 then some notFoundResp
  else none

/-! ## Derived notions used by the theorems -/

/-- All stored pairs across the three stores. -/
def Caches.entries (c : Caches) : List (Url × Response) := c.pwa ++ c.runtime ++ c.assets

/-- The fetch of `u` resolves (does not reject). -/
def fetchResolves (env : FetchEnv) (u : Url) : Bool := (env u).isSome

/-- The fetch of `u` resolves with an ok response. -/
def fetchOk (env : FetchEnv) (u : Url) : Bool :=
  match env u with
  | some r => r.ok
  | none => false

/-! ## General lemmas about the embedding -/

theorem Store.find_put_self (s : Store) (u : Url) (r : Response) :
    (s.put u r).find u = some r := by
  simp [Store.put, Store.find]

theorem Store.find_put_of_ne (s : Store) {k u : Url} (h : k ≠ u) (r : Response) :
    (s.put k r).find u = s.find u := by
  simp [Store.put, Store.find, h]

theorem Store.find_put_isSome (s : Store) {u : Url} (h : s.find u ≠ none)
    (k : Url) (r : Response) : (s.put k r).find u ≠ none := by
  by_cases hk : k = u
  · subst hk; simp [Store.find_put_self]
  · rw [Store.find_put_of_ne s hk]; exact h

theorem Store.putRequest_get (s : Store) (u : Url) (r : Response) :
    s.putRequest "GET" u r = s.put u r := rfl

theorem Store.putRequest_nonGet (s : Store) {m : String} (h : m ≠ "GET")
    (u : Url) (r : Response) : s.putRequest m u r = s := by
  simp [Store.putRequest, h]

theorem fetchOk_exists {env : FetchEnv} {u : Url} (h : fetchOk env u = true) :
    ∃ r, env u = some r ∧ r.ok = true := by
  unfold fetchOk at h
  rcases henv : env u with _ | r
  · rw [henv] at h; exact absurd h (by simp)
  · rw [henv] at h; exact ⟨r, rfl, h⟩

theorem fetchResolves_exists {env : FetchEnv} {u : Url} (h : fetchResolves env u = true) :
    ∃ r, env u = some r := by
  unfold fetchResolves at h
  rcases henv : env u with _ | r
  · rw [henv] at h; exact absurd h (by simp)
  · exact ⟨r, rfl⟩

theorem handleFetch_intercepted (env : FetchEnv) (req : Request) (cs : Caches)
    (hhttp : strStartsWith req.protocol "http" = true) :
    (handleFetch env req cs).intercepted = true := by
  unfold handleFetch
  rw [hhttp]
  simp only [Bool.not_true]
  repeat' split
  all_goals simp_all

theorem handleFetch_caches_nonGet (env : FetchEnv) (req : Request) (cs : Caches)
    (hget : req.method ≠ "GET") :
    (handleFetch env req cs).caches = cs := by
  have hb : (req.method == "GET") = false := beq_eq_false_iff_ne.mpr hget
  unfold handleFetch Store.putRequest
  simp only [Bool.not_true, hb, Bool.and_false, bne, Bool.not_false, if_false,
    Bool.false_eq_true]
  repeat' split
  all_goals simp_all

theorem handleFetch_networkFirst_resolved (env : FetchEnv) (req : Request) (cs : Caches)
    {resp : Response}
    (hhttp : strStartsWith req.protocol "http" = true)
    (hget : req.method = "GET")
    (hman : containsSub req.pathname "/manifest.json" = true)
    (henv : env req.pathname = some resp) (hok : resp.ok = true) :
    (handleFetch env req cs).response = some resp ∧
    (handleFetch env req cs).caches.runtime.find req.pathname = some resp := by
  unfold handleFetch
  rw [hhttp, hman]
  simp [henv, hok, hget, Store.putRequest, Store.find_put_self]

theorem handleFetch_networkFirst_rejected (env : FetchEnv) (req : Request) (cs : Caches)
    (hhttp : strStartsWith req.protocol "http" = true)
    (hman : containsSub req.pathname "/manifest.json" = true)
    (henv : env req.pathname = none) :
    (handleFetch env req cs).response =
      some ((cs.matchUrl req.pathname).getD offlineManifestResponse) ∧
    (handleFetch env req cs).caches = cs := by
  unfold handleFetch
  rw [hhttp, hman]
  simp only [Bool.not_true, henv]
  rcases h : cs.matchUrl req.pathname with _ | c <;> simp [h]

theorem handleFetch_cacheFirst_hit (env : FetchEnv) (req : Request) (cs : Caches)
    {c : Response}
    (hhttp : strStartsWith req.protocol "http" = true)
    (hman : containsSub req.pathname "/manifest.json" = false)
    (hbooks : containsSub req.pathname "/books/" = true)
    (hc : cs.matchUrl req.pathname = some c) :
    handleFetch env req cs =
      { intercepted := true, response := some c, caches := cs, networkUsed := false } := by
  unfold handleFetch
  rw [hhttp, hman, hbooks]
  simp [hc]

theorem handleFetch_cacheFirst_miss_ok (env : FetchEnv) (req : Request) (cs : Caches)
    {resp : Response}
    (hhttp : strStartsWith req.protocol "http" = true)
    (hman : containsSub req.pathname "/manifest.json" = false)
    (hbooks : containsSub req.pathname "/books/" = true)
    (hc : cs.matchUrl req.pathname = none)
    (hmethod : req.method = "GET")
    (henv : env req.pathname = some resp) (hok : resp.ok = true) :
    (handleFetch env req cs).response = some resp ∧
    (handleFetch env req cs).caches.runtime.find req.pathname = some resp := by
  unfold handleFetch
  rw [hhttp, hman, hbooks]
  simp [hc, henv, hok, hmethod, Store.putRequest, Store.find_put_self]

theorem handleFetch_cacheFirst_miss_rejected (env : FetchEnv) (req : Request) (cs : Caches)
    (hhttp : strStartsWith req.protocol "http" = true)
    (hman : containsSub req.pathname "/manifest.json" = false)
    (hbooks : containsSub req.pathname "/books/" = true)
    (hc : cs.matchUrl req.pathname = none)
    (henv : env req.pathname = none) :
    (handleFetch env req cs).response = some offlineResourceResponse ∧
    (handleFetch env req cs).caches = cs := by
  unfold handleFetch
  rw [hhttp, hman, hbooks]
  simp [hc, henv]

/-! ## C7: the concrete one-page download scenario -/

/-- C7: for the one-page manifest of the spec's concrete scenario, the
download workflow attempts exactly the manifest, page-1 image and page-1
thumbnail URLs (3 attempts), the client's reported progress values are
0, 50, 100 with total = 2, and the final client state is
`{isOfflineReady := true, isCaching := false, cacheProgress := 100}` with the
promise resolved. -/
theorem downloadScenario_onePage :
    scenarioResult.attempts =
      [manifestUrl scenarioBase scenarioBookId,
       pageUrl scenarioBase scenarioBookId page1,
       thumbUrl scenarioBase scenarioBookId page1] ∧
    scenarioResult.attempts.length = 3 ∧
    scenarioResult.messages =
      [PortMsg.progress 1 2, PortMsg.progress 2 2, PortMsg.complete true] ∧
    dedupConsec ((clientStates (scenarioResult.messages.map ClientEvent.msg)).map
      (fun r => r.state.cacheProgress)) = [0, 50, 100] ∧
    (clientRun (scenarioResult.messages.map ClientEvent.msg)).state =
      { isOfflineReady := true, isCaching := false, cacheProgress := 100 } ∧
    (clientRun (scenarioResult.messages.map ClientEvent.msg)).settled =
      Settled.resolved := by
  decide

/-! ## C1: the caching flag on the failure and timeout exits -/

/-- C1 (failing evaluation): after a progress update, a
`CACHE_COMPLETE {success:false}` rejection — and likewise the 5-minute
timeout — leaves `isCaching = true`: the client clears the flag only on the
success path, so the failure exits leave it stuck, though `isOfflineReady` is
indeed left unchanged (false). -/
theorem cacheFailure_leaves_isCaching_true :
    (clientRun [ClientEvent.msg (PortMsg.progress 1 2),
                ClientEvent.msg (PortMsg.complete false)]).settled =
      Settled.rejected "Caching failed" ∧
    (clientRun [ClientEvent.msg (PortMsg.progress 1 2),
                ClientEvent.msg (PortMsg.complete false)]).state.isCaching = true ∧
    (clientRun [ClientEvent.msg (PortMsg.progress 1 2),
                ClientEvent.msg (PortMsg.complete false)]).state.isOfflineReady = false ∧
    (clientRun [ClientEvent.msg (PortMsg.progress 1 2),
                ClientEvent.timeout]).settled = Settled.rejected "Caching timeout" ∧
    (clientRun [ClientEvent.msg (PortMsg.progress 1 2),
                ClientEvent.timeout]).state.isCaching = true := by
  decide

/-! ## C2: per-item independence of download failures -/

/-- C2 (counterexample): with one page whose thumbnail fetch rejects while
the page-image fetch itself resolves ok, the store misses the page image as
well (the shared `Promise.all` rejects before either item is stored), even
though the workflow still completes with success — contradicting the claim
that a failure of one item does not prevent storing the other and that the
store would contain every item except the thumbnail. -/
theorem thumbnailRejection_skips_page_image :
    rejectThumbEnv (pageUrl scenarioBase "bk" page1) = some (okResp "image") ∧
    rejectThumbResult.store.find (pageUrl scenarioBase "bk" page1) = none ∧
    rejectThumbResult.store.find (manifestUrl scenarioBase "bk") ≠ none ∧
    rejectThumbResult.messages = [PortMsg.complete true] := by
  decide

/-! ## C3: item accounting and the cover image -/

/-- C3 (counterexample): for a one-page manifest with a distinct cover image,
the progress messages carry total = 2 (never 2N + 1 = 3), only 3 URLs are
attempted, and the cover URL is not among them — the workflow has no cover
handling at all. -/
theorem coverImage_neither_counted_nor_attempted :
    coverResult.messages =
      [PortMsg.progress 1 2, PortMsg.progress 2 2, PortMsg.complete true] ∧
    coverResult.attempts.length = 3 ∧
    (scenarioBase ++ "/books/bk2/cover.jpg") ∉ coverResult.attempts := by
  decide

/-! ## C4: behaviour when the capability is unavailable -/

/-- C4 (counterexample): with the service-worker capability absent (or no
active controller), `CacheManager.cacheBook` throws
`Error('Service Worker not available')` instead of being a non-throwing
no-op. -/
theorem unavailableGuard_throws :
    clientCacheBookGuard false false = Except.error "Service Worker not available" ∧
    clientCacheBookGuard true false = Except.error "Service Worker not available" :=
  ⟨rfl, rfl⟩

/-- C4 (amended): when the service worker or its controller is unavailable,
`cacheBook` rejects with `Error('Service Worker not available')` and performs
no caching work. -/
theorem unavailableGuard_rejects (hasSW hasCtl : Bool)
    (h : hasSW = false ∨ hasCtl = false) :
    clientCacheBookGuard hasSW hasCtl = Except.error "Service Worker not available" := by
  cases hasSW <;> cases hasCtl <;> simp_all [clientCacheBookGuard]

/-- Witness for the amended C4 at a concrete input. -/
theorem unavailableGuard_rejects_witness :
    clientCacheBookGuard false true = Except.error "Service Worker not available" :=
  unavailableGuard_rejects false true (Or.inl rfl)

/-! ## C5: store naming and activation cleanup -/

/-- C5 (counterexample): two distinct catalog ids are downloaded into the very
same store (`caches.open` always receives the fixed runtime-store name), so
there is no distinct per-catalog store named prefix + id; and activation
cleanup deletes a store named with a catalog-like prefix rather than sparing
it. -/
theorem storeName_not_per_catalog :
    (swCacheBook true scenarioEnv scenarioBase "bookA" [] []).storeName =
      (swCacheBook true scenarioEnv scenarioBase "bookB" [] []).storeName ∧
    ("bookA" : String) ≠ "bookB" ∧
    activateDeletedCaches
      ["flipbook-pwa-v1", "flipbook-runtime-v1", "flipbook-assets-v1",
       "flipbook-cache-bookA"] = ["flipbook-cache-bookA"] := by
  decide

/-! ## C6: treatment of non-GET requests -/

/-- C6 (counterexample): a POST to a manifest-path URL is intercepted — the
fetch listener inspects no method before calling `respondWith`, so the
request does not pass through untouched: its response is served through the
handler (while the platform's GET-only `cache.put` keeps it out of every
store). -/
theorem postManifest_intercepted :
    postManifestReq.method = "POST" ∧
    (handleFetch postManifestEnv postManifestReq emptyCaches).intercepted = true ∧
    (handleFetch postManifestEnv postManifestReq emptyCaches).response =
      some (okResp "posted") ∧
    (handleFetch postManifestEnv postManifestReq emptyCaches).caches = emptyCaches := by
  decide

/-! ## C8: the network-first strategy for manifest paths -/

/-- C8: for a GET request whose path contains the manifest marker, a
network fetch resolving ok is returned live (even over a stale cached copy)
and its clone is put into the runtime store; a rejected network fetch falls
back to the cached copy when present and otherwise to the synthesized 503
"Service Unavailable" response. -/
theorem networkFirst_manifest_strategy (env : FetchEnv) (req : Request) (cs : Caches)
    (hhttp : strStartsWith req.protocol "http" = true)
    (hget : req.method = "GET")
    (hman : containsSub req.pathname "/manifest.json" = true) :
    (∀ resp : Response, env req.pathname = some resp → resp.ok = true →
      (handleFetch env req cs).response = some resp ∧
      (handleFetch env req cs).caches.runtime.find req.pathname = some resp) ∧
    (env req.pathname = none →
      (handleFetch env req cs).response =
        some ((cs.matchUrl req.pathname).getD offlineManifestResponse)) ∧
    offlineManifestResponse.status = 503 ∧
    offlineManifestResponse.statusText = "Service Unavailable" :=
  ⟨fun _resp henv hok =>
     handleFetch_networkFirst_resolved env req cs hhttp hget hman henv hok,
   fun henv => (handleFetch_networkFirst_rejected env req cs hhttp hman henv).1,
   rfl, rfl⟩

/-- Witness for C8: with a stale cached manifest present and a fresh network
response, the fresh body is returned and cached. -/
theorem networkFirst_manifest_strategy_witness :
    (handleFetch manEnv manReq staleCaches).response = some (okResp "fresh") ∧
    (handleFetch manEnv manReq staleCaches).caches.runtime.find
      "/books/w/manifest.json" = some (okResp "fresh") :=
  (networkFirst_manifest_strategy manEnv manReq staleCaches (by decide) (by decide)
    (by decide)).1 (okResp "fresh") (by decide) rfl

/-! ## C9: the cache-first strategy for book assets -/

/-- C9: for a GET request whose path contains the books marker (and not the
manifest marker, which takes priority), a cache hit is returned with no
network fetch and no cache change; on a miss the network response is returned
and an ok response stored; a rejected fetch with no cached copy yields the
synthesized 503 response with body "Offline - resource not available". -/
theorem cacheFirst_books_strategy (env : FetchEnv) (req : Request) (cs : Caches)
    (hhttp : strStartsWith req.protocol "http" = true)
    (hman : containsSub req.pathname "/manifest.json" = false)
    (hbooks : containsSub req.pathname "/books/" = true) :
    (∀ c : Response, cs.matchUrl req.pathname = some c →
      handleFetch env req cs =
        { intercepted := true, response := some c, caches := cs, networkUsed := false }) ∧
    (cs.matchUrl req.pathname = none → req.method = "GET" →
      ∀ resp : Response, env req.pathname = some resp → resp.ok = true →
        (handleFetch env req cs).response = some resp ∧
        (handleFetch env req cs).caches.runtime.find req.pathname = some resp) ∧
    (cs.matchUrl req.pathname = none → env req.pathname = none →
      (handleFetch env req cs).response = some offlineResourceResponse ∧
      (handleFetch env req cs).caches = cs) ∧
    offlineResourceResponse.status = 503 ∧
    offlineResourceResponse.body = "Offline - resource not available" :=
  ⟨fun _c hc => handleFetch_cacheFirst_hit env req cs hhttp hman hbooks hc,
   fun hc hmethod _resp henv hok =>
     handleFetch_cacheFirst_miss_ok env req cs hhttp hman hbooks hc hmethod henv hok,
   fun hc henv => handleFetch_cacheFirst_miss_rejected env req cs hhttp hman hbooks hc henv,
   rfl, rfl⟩

/-- Witness for C9: the offline, uncached request for
`/books/x/pages/page-2.jpg` resolves to the synthesized 503 response. -/
theorem cacheFirst_books_strategy_witness :
    (handleFetch offlineEnv booksReq emptyCaches).response = some offlineResourceResponse ∧
    (handleFetch offlineEnv booksReq emptyCaches).caches = emptyCaches :=
  ((cacheFirst_books_strategy offlineEnv booksReq emptyCaches (by decide) (by decide)
    (by decide)).2.2.1) rfl rfl

/-! ## Store-content invariants -/

theorem handleFetch_entries_ok (env : FetchEnv) (req : Request) (cs : Caches)
    (u : Url) (r : Response)
    (h : (u, r) ∈ (handleFetch env req cs).caches.entries) :
    (u, r) ∈ cs.entries ∨ r.ok = true := by
  unfold handleFetch Store.putRequest at h
  repeat' split at h
  all_goals simp_all [Caches.entries, Store.put, List.mem_append, List.mem_cons]
  all_goals
    rcases h with h | h | h | h <;>
      first
        | exact Or.inl (Or.inl h)
        | exact Or.inl (Or.inr (Or.inl h))
        | exact Or.inl (Or.inr (Or.inr h))
        | (obtain ⟨hu, hr⟩ := h; subst hr; tauto)

theorem cachePageStep_store_mem (env : FetchEnv) (baseUrl bookId : String) (total : Nat)
    (p : Page) (store : Store) (cached : Nat) (u : Url) (r : Response)
    (h : (u, r) ∈ (cachePageStep env baseUrl bookId total p store cached).1) :
    (u, r) ∈ store ∨ r.ok = true := by
  unfold cachePageStep at h
  rcases h1 : env (pageUrl baseUrl bookId p) with _ | pr <;>
    rcases h2 : env (thumbUrl baseUrl bookId p) with _ | tr <;>
    simp only [h1, h2] at h
  · exact Or.inl h
  · exact Or.inl h
  · exact Or.inl h
  · by_cases hpr : pr.ok <;> by_cases htr : tr.ok <;>
      simp only [hpr, htr, if_true, if_false, Bool.false_eq_true] at h
    · rcases List.mem_cons.mp h with he | h3
      · cases he; exact Or.inr htr
      · rcases List.mem_cons.mp h3 with he | h4
        · cases he; exact Or.inr hpr
        · exact Or.inl h4
    · rcases List.mem_cons.mp h with he | h3
      · cases he; exact Or.inr hpr
      · exact Or.inl h3
    · rcases List.mem_cons.mp h with he | h3
      · cases he; exact Or.inr htr
      · exact Or.inl h3
    · exact Or.inl h

theorem storeManifest_mem (env : FetchEnv) (baseUrl bookId : String) (store : Store)
    (u : Url) (r : Response)
    (h : (u, r) ∈ storeManifest env baseUrl bookId store) :
    (u, r) ∈ store ∨ r.ok = true := by
  unfold storeManifest at h
  rcases h1 : env (manifestUrl baseUrl bookId) with _ | mr <;> simp only [h1] at h
  · exact Or.inl h
  · by_cases hmr : mr.ok <;> simp only [hmr, if_true, if_false, Bool.false_eq_true] at h
    · rcases List.mem_cons.mp h with he | h3
      · cases he; exact Or.inr hmr
      · exact Or.inl h3
    · exact Or.inl h

theorem cachePages_store_mem (env : FetchEnv) (baseUrl bookId : String) (total : Nat) :
    ∀ (ps : List Page) (store : Store) (cached : Nat) (u : Url) (r : Response),
      (u, r) ∈ (cachePages env baseUrl bookId total ps store cached).store →
      (u, r) ∈ store ∨ r.ok = true
  | [], store, cached, u, r, h => by
      simp [cachePages] at h
      exact Or.inl h
  | p :: ps, store, cached, u, r, h => by
      simp only [cachePages] at h
      rcases cachePages_store_mem env baseUrl bookId total ps _ _ u r h with h2 | h2
      · exact cachePageStep_store_mem env baseUrl bookId total p store cached u r h2
      · exact Or.inr h2

theorem swCacheBook_store_mem (openOk : Bool) (env : FetchEnv) (baseUrl bookId : String)
    (pages : List Page) (store : Store) (u : Url) (r : Response)
    (h : (u, r) ∈ (swCacheBook openOk env baseUrl bookId pages store).store) :
    (u, r) ∈ store ∨ r.ok = true := by
  unfold swCacheBook at h
  split at h
  · simp only at h
    rcases cachePages_store_mem env baseUrl bookId (pages.length * 2) pages _ 0 u r h with h2 | h2
    · exact storeManifest_mem env baseUrl bookId store u r h2
    · exact Or.inr h2
  · exact Or.inl h

/-! ## C6 (amended): how the method actually interacts with interception -/

/-- C6 (amended): every http(s) request is intercepted by the fetch handler
regardless of method — so non-GET requests do not pass through untouched —
but nothing is ever written to any cache store for a non-GET request: the
cache-first and stale-while-revalidate branches check the method themselves,
and in the network-first manifest branch the platform's GET-only `cache.put`
rejects the write, a rejection the detached promise swallows. -/
theorem nonGet_interception (env : FetchEnv) (req : Request) (cs : Caches)
    (hhttp : strStartsWith req.protocol "http" = true) :
    (handleFetch env req cs).intercepted = true ∧
    (req.method ≠ "GET" → (handleFetch env req cs).caches = cs) :=
  ⟨handleFetch_intercepted env req cs hhttp,
   fun hget => handleFetch_caches_nonGet env req cs hget⟩

/-- Witness for the amended C6: a PUT to a non-manifest path is intercepted
and leaves every cache store unchanged. -/
theorem nonGet_interception_witness :
    (handleFetch offlineEnv putAssetReq emptyCaches).intercepted = true ∧
    (handleFetch offlineEnv putAssetReq emptyCaches).caches = emptyCaches :=
  ⟨(nonGet_interception offlineEnv putAssetReq emptyCaches (by decide)).1,
   (nonGet_interception offlineEnv putAssetReq emptyCaches (by decide)).2
     (by decide)⟩

/-! ## C10: the write invariant of every cache-writing operation -/

/-- C10: only ok responses are ever written into a cache store, and no
response to a non-GET request is ever stored: a pair present after the fetch
handler ran was either already stored or carries an ok response; a non-GET
request leaves every store unchanged (the cache-first and
stale-while-revalidate branches check the method, and the network-first
branch's put of a non-GET request is rejected by the GET-only platform
`cache.put`); and the download loop — whose URL-keyed puts are GET
requests — likewise only adds ok responses. -/
theorem okOnly_write_invariant :
    (∀ (env : FetchEnv) (req : Request) (cs : Caches) (u : Url) (r : Response),
      (u, r) ∈ (handleFetch env req cs).caches.entries →
      (u, r) ∈ cs.entries ∨ r.ok = true) ∧
    (∀ (env : FetchEnv) (req : Request) (cs : Caches),
      req.method ≠ "GET" → (handleFetch env req cs).caches = cs) ∧
    (∀ (openOk : Bool) (env : FetchEnv) (baseUrl bookId : String) (pages : List Page)
      (store : Store) (u : Url) (r : Response),
      (u, r) ∈ (swCacheBook openOk env baseUrl bookId pages store).store →
      (u, r) ∈ store ∨ r.ok = true) :=
  ⟨handleFetch_entries_ok,
   fun env req cs hget => handleFetch_caches_nonGet env req cs hget,
   swCacheBook_store_mem⟩

/-- Witness for C10: the entry the fresh GET manifest fetch adds to the
runtime store carries an ok response, and a PUT to a manifest path leaves
every store unchanged. -/
theorem okOnly_write_invariant_witness :
    (("/books/w/manifest.json", okResp "fresh") ∈ staleCaches.entries ∨
      (okResp "fresh").ok = true) ∧
    (handleFetch putManifestEnv putManifestReq emptyCaches).caches = emptyCaches :=
  ⟨okOnly_write_invariant.1 manEnv manReq staleCaches
      "/books/w/manifest.json" (okResp "fresh") (by decide),
   okOnly_write_invariant.2.1 putManifestEnv putManifestReq emptyCaches (by decide)⟩

/-! ## C5 (amended): the shared runtime store and exact cleanup -/

/-- C5 (amended): every download writes into the single fixed runtime store
(the same store for every catalog id), and activation cleanup deletes exactly
the stores whose name differs from all three fixed names — no prefix is
exempted. -/
theorem sharedRuntimeStore_and_cleanup :
    (∀ (openOk : Bool) (env : FetchEnv) (baseUrl bookId : String) (pages : List Page)
        (store : Store),
      (swCacheBook openOk env baseUrl bookId pages store).storeName = RUNTIME_CACHE) ∧
    (∀ (names : List String) (n : String),
      n ∈ activateDeletedCaches names ↔
        n ∈ names ∧ n ≠ CACHE_NAME ∧ n ≠ RUNTIME_CACHE ∧ n ≠ ASSET_CACHE) := by
  constructor
  · intro openOk env baseUrl bookId pages store
    unfold swCacheBook
    split <;> rfl
  · intro names n
    unfold activateDeletedCaches
    rw [List.mem_filter]
    simp [and_assoc]

/-- Witness for the amended C5 at concrete inputs. -/
theorem sharedRuntimeStore_and_cleanup_witness :
    (swCacheBook true offlineEnv scenarioBase "bookZ" [] []).storeName = RUNTIME_CACHE ∧
    "old-cache" ∈ activateDeletedCaches ["old-cache"] :=
  ⟨sharedRuntimeStore_and_cleanup.1 true offlineEnv scenarioBase "bookZ" [] [],
   (sharedRuntimeStore_and_cleanup.2 ["old-cache"] "old-cache").mpr (by decide)⟩

/-! ## Shape of the download loop's attempts and messages -/

theorem cachePages_attempts_eq (env : FetchEnv) (baseUrl bookId : String) (total : Nat) :
    ∀ (ps : List Page) (store : Store) (cached : Nat),
      (cachePages env baseUrl bookId total ps store cached).attempts =
        ps.flatMap fun p => [pageUrl baseUrl bookId p, thumbUrl baseUrl bookId p]
  | [], store, cached => by simp [cachePages]
  | p :: ps, store, cached => by
      have ih := cachePages_attempts_eq env baseUrl bookId total ps
        (cachePageStep env baseUrl bookId total p store cached).1
        (cachePageStep env baseUrl bookId total p store cached).2.1
      simp [cachePages, ih]

theorem cachePageStep_msgs_shape (env : FetchEnv) (baseUrl bookId : String) (total : Nat)
    (p : Page) (store : Store) (cached : Nat) :
    ∀ m ∈ (cachePageStep env baseUrl bookId total p store cached).2.2,
      ∃ c, m = PortMsg.progress c total := by
  unfold cachePageStep
  rcases h1 : env (pageUrl baseUrl bookId p) with _ | pr <;>
    rcases h2 : env (thumbUrl baseUrl bookId p) with _ | tr <;>
    simp only [h1, h2]
  · simp
  · simp
  · simp
  · by_cases hpr : pr.ok <;> by_cases htr : tr.ok <;> simp [hpr, htr]

theorem cachePages_msgs_shape (env : FetchEnv) (baseUrl bookId : String) (total : Nat) :
    ∀ (ps : List Page) (store : Store) (cached : Nat),
      ∀ m ∈ (cachePages env baseUrl bookId total ps store cached).msgs,
        ∃ c, m = PortMsg.progress c total
  | [], store, cached => by simp [cachePages]
  | p :: ps, store, cached => by
      intro m hm
      simp only [cachePages, List.mem_append] at hm
      rcases hm with hm | hm
      · exact cachePageStep_msgs_shape env baseUrl bookId total p store cached m hm
      · exact cachePages_msgs_shape env baseUrl bookId total ps _ _ m hm

/-! ## C3 (amended): item accounting without a cover -/

/-- C3 (amended): the progress denominator is always
(number of pages) × 2 — a cover image is never counted — the attempted URLs
are exactly the manifest URL followed by each page's image and thumbnail
URLs in page order (so no cover URL is ever attempted), and the CACHE_BOOK
payload itself is independent of the manifest's coverImage field. -/
theorem totalItems_twice_pages (env : FetchEnv) (baseUrl bookId : String)
    (pages : List Page) (store : Store) :
    (swCacheBook true env baseUrl bookId pages store).attempts =
      manifestUrl baseUrl bookId ::
        (pages.flatMap fun p => [pageUrl baseUrl bookId p, thumbUrl baseUrl bookId p]) ∧
    (∀ m ∈ (swCacheBook true env baseUrl bookId pages store).messages,
      m = PortMsg.complete true ∨ ∃ c, m = PortMsg.progress c (pages.length * 2)) ∧
    (∀ (m : BookManifest) (c : String),
      cacheBookMessage { m with coverImage := c } = cacheBookMessage m) := by
  refine ⟨?_, ?_, fun m c => rfl⟩
  · unfold swCacheBook
    simp [cachePages_attempts_eq]
  · intro m hm
    unfold swCacheBook at hm
    simp only [if_true] at hm
    rw [List.mem_append] at hm
    rcases hm with hm | hm
    · exact Or.inr (cachePages_msgs_shape env baseUrl bookId (pages.length * 2) pages _ 0 m hm)
    · left; simpa using hm

/-- Witness for the amended C3: the attempted URLs of the concrete cover
manifest download are exactly manifest, image, thumbnail. -/
theorem totalItems_twice_pages_witness :
    (swCacheBook true coverEnv scenarioBase "bk2" [page1] []).attempts =
      manifestUrl scenarioBase "bk2" ::
        ([page1].flatMap fun p => [pageUrl scenarioBase "bk2" p, thumbUrl scenarioBase "bk2" p]) :=
  (totalItems_twice_pages coverEnv scenarioBase "bk2" [page1] []).1

/-! ## Lemmas about what the download loop stores -/
theorem fetchOk_resolves {env : FetchEnv} {u : Url} (h : fetchOk env u = true) :
    fetchResolves env u = true := by
  obtain ⟨r, hr, _⟩ := fetchOk_exists h
  simp [fetchResolves, hr]

theorem cachePageStep_find_pres (env : FetchEnv) (baseUrl bookId : String) (total : Nat)
    (p : Page) (store : Store) (cached : Nat) (u : Url)
    (h : store.find u ≠ none) :
    (cachePageStep env baseUrl bookId total p store cached).1.find u ≠ none := by
  unfold cachePageStep
  rcases h1 : env (pageUrl baseUrl bookId p) with _ | pr <;>
    rcases h2 : env (thumbUrl baseUrl bookId p) with _ | tr <;>
    simp only [h1, h2]
  · exact h
  · exact h
  · exact h
  · by_cases hpr : pr.ok <;> by_cases htr : tr.ok <;>
      simp only [hpr, htr, if_true, if_false, Bool.false_eq_true]
    · exact Store.find_put_isSome _ (Store.find_put_isSome _ h _ _) _ _
    · exact Store.find_put_isSome _ h _ _
    · exact Store.find_put_isSome _ h _ _
    · exact h

theorem cachePages_find_pres (env : FetchEnv) (baseUrl bookId : String) (total : Nat) :
    ∀ (ps : List Page) (store : Store) (cached : Nat) (u : Url),
      store.find u ≠ none →
      (cachePages env baseUrl bookId total ps store cached).store.find u ≠ none
  | [], store, cached, u, h => by simpa [cachePages] using h
  | p :: ps, store, cached, u, h => by
      simp only [cachePages]
      exact cachePages_find_pres env baseUrl bookId total ps _ _ u
        (cachePageStep_find_pres env baseUrl bookId total p store cached u h)

theorem cachePageStep_stores_page (env : FetchEnv) (baseUrl bookId : String) (total : Nat)
    (p : Page) (store : Store) (cached : Nat)
    (hp : fetchOk env (pageUrl baseUrl bookId p) = true)
    (ht : fetchResolves env (thumbUrl baseUrl bookId p) = true) :
    (cachePageStep env baseUrl bookId total p store cached).1.find
      (pageUrl baseUrl bookId p) ≠ none := by
  obtain ⟨pr, hpr, hok⟩ := fetchOk_exists hp
  obtain ⟨tr, htr⟩ := fetchResolves_exists ht
  unfold cachePageStep
  simp only [hpr, htr, hok, if_true]
  by_cases h2 : tr.ok <;> simp only [h2, if_true, if_false, Bool.false_eq_true]
  · exact Store.find_put_isSome _ (by simp [Store.find_put_self]) _ _
  · simp [Store.find_put_self]

theorem cachePageStep_stores_thumb (env : FetchEnv) (baseUrl bookId : String) (total : Nat)
    (p : Page) (store : Store) (cached : Nat)
    (hp : fetchResolves env (pageUrl baseUrl bookId p) = true)
    (ht : fetchOk env (thumbUrl baseUrl bookId p) = true) :
    (cachePageStep env baseUrl bookId total p store cached).1.find
      (thumbUrl baseUrl bookId p) ≠ none := by
  obtain ⟨pr, hpr⟩ := fetchResolves_exists hp
  obtain ⟨tr, htr, hok⟩ := fetchOk_exists ht
  unfold cachePageStep
  simp only [hpr, htr, hok, if_true]
  by_cases h2 : pr.ok <;> simp only [h2, if_true, if_false, Bool.false_eq_true]
  · simp [Store.find_put_self]
  · simp [Store.find_put_self]

theorem cachePageStep_find_none (env : FetchEnv) (baseUrl bookId : String) (total : Nat)
    (p : Page) (store : Store) (cached : Nat) (u : Url)
    (h : store.find u = none)
    (hpu : pageUrl baseUrl bookId p ≠ u)
    (htu : thumbUrl baseUrl bookId p = u → fetchOk env (thumbUrl baseUrl bookId p) = false) :
    (cachePageStep env baseUrl bookId total p store cached).1.find u = none := by
  unfold cachePageStep
  rcases h1 : env (pageUrl baseUrl bookId p) with _ | pr <;>
    rcases h2 : env (thumbUrl baseUrl bookId p) with _ | tr <;>
    simp only [h1, h2]
  · exact h
  · exact h
  · exact h
  · have htu2 : tr.ok = true → thumbUrl baseUrl bookId p ≠ u := by
      intro hok he
      have hbad := htu he
      unfold fetchOk at hbad
      rw [h2] at hbad
      simp only [] at hbad
      simp [hok] at hbad
    by_cases hpr : pr.ok <;> by_cases htr : tr.ok <;>
      simp only [hpr, htr, if_true, if_false, Bool.false_eq_true]
    · rw [Store.find_put_of_ne _ (htu2 htr), Store.find_put_of_ne _ hpu]
      exact h
    · rw [Store.find_put_of_ne _ hpu]
      exact h
    · rw [Store.find_put_of_ne _ (htu2 htr)]
      exact h
    · exact h

theorem cachePages_find_none (env : FetchEnv) (baseUrl bookId : String) (total : Nat)
    (u : Url) :
    ∀ (ps : List Page) (store : Store) (cached : Nat),
      store.find u = none →
      (∀ p ∈ ps, pageUrl baseUrl bookId p ≠ u) →
      (∀ p ∈ ps, thumbUrl baseUrl bookId p = u →
        fetchOk env (thumbUrl baseUrl bookId p) = false) →
      (cachePages env baseUrl bookId total ps store cached).store.find u = none
  | [], store, cached, h, _, _ => by simpa [cachePages] using h
  | p :: ps, store, cached, h, hpu, htu => by
      simp only [cachePages]
      exact cachePages_find_none env baseUrl bookId total u ps _ _
        (cachePageStep_find_none env baseUrl bookId total p store cached u h
          (hpu p (List.mem_cons_self p ps)) (htu p (List.mem_cons_self p ps)))
        (fun q hq => hpu q (List.mem_cons_of_mem p hq))
        (fun q hq => htu q (List.mem_cons_of_mem p hq))

theorem cachePages_stores_items (env : FetchEnv) (baseUrl bookId : String) (total : Nat) :
    ∀ (ps : List Page) (store : Store) (cached : Nat),
      (∀ p ∈ ps, fetchOk env (pageUrl baseUrl bookId p) = true) →
      (∀ p ∈ ps, fetchResolves env (thumbUrl baseUrl bookId p) = true) →
      ∀ p ∈ ps,
        ((cachePages env baseUrl bookId total ps store cached).store.find
            (pageUrl baseUrl bookId p) ≠ none ∧
         (fetchOk env (thumbUrl baseUrl bookId p) = true →
          (cachePages env baseUrl bookId total ps store cached).store.find
            (thumbUrl baseUrl bookId p) ≠ none))
  | [], store, cached, _, _ => by simp
  | q :: ps, store, cached, hp, ht => by
      intro p hpmem
      simp only [cachePages]
      rcases List.mem_cons.mp hpmem with rfl | hmem
      · constructor
        · exact cachePages_find_pres env baseUrl bookId total ps _ _ _
            (cachePageStep_stores_page env baseUrl bookId total p store cached
              (hp p (List.mem_cons_self p ps)) (ht p (List.mem_cons_self p ps)))
        · intro hok
          exact cachePages_find_pres env baseUrl bookId total ps _ _ _
            (cachePageStep_stores_thumb env baseUrl bookId total p store cached
              (fetchOk_resolves (hp p (List.mem_cons_self p ps))) hok)
      · exact cachePages_stores_items env baseUrl bookId total ps _ _
          (fun q2 hq => hp q2 (List.mem_cons_of_mem q hq))
          (fun q2 hq => ht q2 (List.mem_cons_of_mem q hq)) p hmem

theorem storeManifest_find_ok (env : FetchEnv) (baseUrl bookId : String) (store : Store)
    (h : fetchOk env (manifestUrl baseUrl bookId) = true) :
    (storeManifest env baseUrl bookId store).find (manifestUrl baseUrl bookId) ≠ none := by
  obtain ⟨r, hr, hok⟩ := fetchOk_exists h
  unfold storeManifest
  simp [hr, hok, Store.find_put_self]

theorem storeManifest_find_ne (env : FetchEnv) (baseUrl bookId : String) (store : Store)
    (u : Url) (h : manifestUrl baseUrl bookId ≠ u) :
    (storeManifest env baseUrl bookId store).find u = store.find u := by
  unfold storeManifest
  rcases h1 : env (manifestUrl baseUrl bookId) with _ | r
  · simp only [h1]
  · simp only [h1]
    by_cases hok : r.ok <;> simp only [hok, if_true, if_false, Bool.false_eq_true]
    exact Store.find_put_of_ne _ h _



theorem clientFold_progress_pres :
    ∀ (msgs : List PortMsg), (∀ m ∈ msgs, m.isProgress = true) →
      ∀ r : ClientRun,
        ((msgs.map ClientEvent.msg).foldl clientHandle r).portClosed = r.portClosed ∧
        ((msgs.map ClientEvent.msg).foldl clientHandle r).settled = r.settled
  | [], _, r => by simp
  | m :: ms, h, r => by
      have hm := h m (List.mem_cons_self m ms)
      have hrest : ∀ m2 ∈ ms, m2.isProgress = true :=
        fun m2 hm2 => h m2 (List.mem_cons_of_mem m hm2)
      cases m with
      | complete s => simp [PortMsg.isProgress] at hm
      | progress c t =>
        have ih := clientFold_progress_pres ms hrest
          (clientHandle r (.msg (.progress c t)))
        have hstep : (clientHandle r (.msg (.progress c t))).portClosed = r.portClosed ∧
            (clientHandle r (.msg (.progress c t))).settled = r.settled := by
          by_cases hpc : r.portClosed <;> simp [clientHandle, hpc]
        simp only [List.map_cons, List.foldl_cons]
        exact ⟨ih.1.trans hstep.1, ih.2.trans hstep.2⟩

theorem clientRun_progress_complete (msgs : List PortMsg)
    (h : ∀ m ∈ msgs, m.isProgress = true) :
    (clientRun ((msgs ++ [PortMsg.complete true]).map ClientEvent.msg)).state =
      { isOfflineReady := true, isCaching := false, cacheProgress := 100 } ∧
    (clientRun ((msgs ++ [PortMsg.complete true]).map ClientEvent.msg)).settled =
      Settled.resolved := by
  unfold clientRun
  rw [List.map_append, List.foldl_append]
  have hpres := clientFold_progress_pres msgs h
    { state := initialCacheState, settled := .pending, portClosed := false }
  simp only [List.map_cons, List.map_nil, List.foldl_cons, List.foldl_nil]
  simp [clientHandle, hpres.1, hpres.2]




/-- C2 (amended): per-item failures are independent only at the level of
non-ok responses.  When the manifest and every page image resolve ok, one
page's thumbnail resolves with a non-ok response, and every other thumbnail
resolves ok (all item URLs distinct), the workflow still completes: the
client ends offline-ready with the caching flag cleared and progress 100, and
the store contains the manifest, every page image and every other thumbnail,
but not the failed thumbnail.  (A rejected — rather than non-ok — fetch
instead skips both items of its page, as the counterexample shows.) -/
theorem thumbnailNonOk_partial_failure (env : FetchEnv) (baseUrl bookId : String)
    (pages : List Page) (pj : Page) (hmem : pj ∈ pages)
    (hman : fetchOk env (manifestUrl baseUrl bookId) = true)
    (hp : ∀ p ∈ pages, fetchOk env (pageUrl baseUrl bookId p) = true)
    (htj : fetchResolves env (thumbUrl baseUrl bookId pj) = true)
    (htjBad : fetchOk env (thumbUrl baseUrl bookId pj) = false)
    (ht : ∀ p ∈ pages, thumbUrl baseUrl bookId p ≠ thumbUrl baseUrl bookId pj →
      fetchOk env (thumbUrl baseUrl bookId p) = true)
    (hd1 : ∀ p ∈ pages, pageUrl baseUrl bookId p ≠ thumbUrl baseUrl bookId pj)
    (hd2 : manifestUrl baseUrl bookId ≠ thumbUrl baseUrl bookId pj) :
    (clientRun ((swCacheBook true env baseUrl bookId pages []).messages.map
        ClientEvent.msg)).state =
      { isOfflineReady := true, isCaching := false, cacheProgress := 100 } ∧
    (swCacheBook true env baseUrl bookId pages []).store.find
      (manifestUrl baseUrl bookId) ≠ none ∧
    (∀ p ∈ pages, (swCacheBook true env baseUrl bookId pages []).store.find
      (pageUrl baseUrl bookId p) ≠ none) ∧
    (∀ p ∈ pages, thumbUrl baseUrl bookId p ≠ thumbUrl baseUrl bookId pj →
      (swCacheBook true env baseUrl bookId pages []).store.find
        (thumbUrl baseUrl bookId p) ≠ none) ∧
    (swCacheBook true env baseUrl bookId pages []).store.find
      (thumbUrl baseUrl bookId pj) = none := by
  have hresolves : ∀ p ∈ pages, fetchResolves env (thumbUrl baseUrl bookId p) = true := by
    intro p hpm
    by_cases he : thumbUrl baseUrl bookId p = thumbUrl baseUrl bookId pj
    · rw [he]; exact htj
    · exact fetchOk_resolves (ht p hpm he)
  have hmsgs : (swCacheBook true env baseUrl bookId pages []).messages =
      (cachePages env baseUrl bookId (pages.length * 2) pages
        (storeManifest env baseUrl bookId []) 0).msgs ++ [PortMsg.complete true] := rfl
  have hstore : (swCacheBook true env baseUrl bookId pages []).store =
      (cachePages env baseUrl bookId (pages.length * 2) pages
        (storeManifest env baseUrl bookId []) 0).store := rfl
  refine ⟨?_, ?_, ?_, ?_, ?_⟩
  · rw [hmsgs]
    refine (clientRun_progress_complete _ ?_).1
    intro m hmm
    obtain ⟨c, rfl⟩ := cachePages_msgs_shape env baseUrl bookId _ pages _ 0 m hmm
    rfl
  · rw [hstore]
    exact cachePages_find_pres env baseUrl bookId _ pages _ 0 _
      (storeManifest_find_ok env baseUrl bookId [] hman)
  · intro p hpm
    rw [hstore]
    exact (cachePages_stores_items env baseUrl bookId _ pages _ 0 hp hresolves p hpm).1
  · intro p hpm hne
    rw [hstore]
    exact (cachePages_stores_items env baseUrl bookId _ pages _ 0 hp hresolves p hpm).2
      (ht p hpm hne)
  · rw [hstore]
    refine cachePages_find_none env baseUrl bookId _ _ pages _ 0 ?_ hd1 ?_
    · rw [storeManifest_find_ne env baseUrl bookId [] _ hd2]
      rfl
    · intro p _ he
      rw [he]
      exact htjBad

/-- Witness for the amended C2: the one-page book whose thumbnail resolves
404 still ends offline-ready, with the thumbnail absent from the store. -/
theorem thumbnailNonOk_partial_failure_witness :
    (clientRun ((swCacheBook true nonOkThumbEnv scenarioBase "bk3" [page1] []).messages.map
        ClientEvent.msg)).state =
      { isOfflineReady := true, isCaching := false, cacheProgress := 100 } ∧
    (swCacheBook true nonOkThumbEnv scenarioBase "bk3" [page1] []).store.find
      (thumbUrl scenarioBase "bk3" page1) = none :=
  ⟨(thumbnailNonOk_partial_failure nonOkThumbEnv scenarioBase "bk3" [page1] page1
      (by decide) (by decide) (by decide) (by decide) (by decide) (by decide)
      (by decide) (by decide)).1,
   (thumbnailNonOk_partial_failure nonOkThumbEnv scenarioBase "bk3" [page1] page1
      (by decide) (by decide) (by decide) (by decide) (by decide) (by decide)
      (by decide) (by decide)).2.2.2.2⟩

end HighPowerCatalog
